import Mathlib

/-!
Shallow embedding of `src/cpp_config/cpp_config.py`.

The program builds a fixed-shape configuration record (one entry of
`c_cpp_properties.json`) and persists it under `<ruta>/.vscode/`.
We model:
  - the record type (`ConfigEntry`, `ConfigRecord`) mirroring the dict shape
    the Python code constructs;
  - Python truthiness on optional strings (`falsyStr`: `not s` is true for
    `None` and for the empty string);
  - the two validating build methods of class `Cpp_config`
    (`_build_config_estandar`, `_build_config_pybind`), which in Python raise
    `ValueError` with a message; here they return `Except String ConfigRecord`;
  - `json.dump(..., indent=4)` serialization of the fixed-shape record
    (`dumpRecord`), including Python's `ensure_ascii` string escaping;
  - a filesystem state `FS` (existing directories and file contents) with
    `os.makedirs(path, exist_ok)` and writing;
  - the four persistence operations. Faithful to the Python evaluation order,
    each persist first runs `os.makedirs(f"{ruta}/.vscode", exist_ok=True)`,
    then `open(..., "w")` (which creates/truncates the file to empty content),
    and only then evaluates the build call whose `ValueError` may propagate,
    so on validation failure the directory exists and the file is left empty.
-/

/-- One element of the `configurations` list of `c_cpp_properties.json`,
with the exact keys the Python code writes, in source order. -/
structure ConfigEntry where
  name : String
  includePath : List String
  compilerPath : String
  cStandard : String
  cppStandard : String
  intelliSenseMode : String
deriving DecidableEq

/-- The whole JSON document: a `configurations` list and a `version` number. -/
structure ConfigRecord where
  configurations : List ConfigEntry
  version : Nat
deriving DecidableEq

/-- The wildcard include entry `${workspaceFolder}/**` that every build mode
puts first in `includePath`. -/
def wildcard : String := "${workspaceFolder}/**"

/-- Python truthiness of an `str | None` value: `not x` is `True` exactly when
`x` is `None` or the empty string. -/
def falsyStr : Option String → Bool
  | none => true
  | some s => s == ""

/-- State of class `Cpp_config`: the three optional path strings given to
`__init__`. -/
structure Cpp_config where
  ruta_compilador : Option String
  python_dll : Option String
  pybind11_dll : Option String
deriving DecidableEq

/-- `Cpp_config._build_config_estandar`: raises
`ValueError("ruta_compilador es requerido")` when `not self.ruta_compilador`,
else returns the plain record. The `getD ""` only extracts the string that the
preceding truthiness check guarantees to be present and non-empty. -/
def Cpp_config._build_config_estandar (self : Cpp_config) : Except String ConfigRecord :=
  if falsyStr self.ruta_compilador then
    Except.error "ruta_compilador es requerido"
  else
    Except.ok
      { configurations := [
          { name := "MSVC"
            includePath := [wildcard]
            compilerPath := self.ruta_compilador.getD ""
            cStandard := "c17"
            cppStandard := "c++20"
            intelliSenseMode := "windows-msvc-x64" }]
        version := 4 }

/-- `Cpp_config._build_config_pybind`: checks `ruta_compilador`, then
`python_dll`, then `pybind11_dll` (first failing check raises), else returns
the extended record whose `includePath` lists `pybind11_dll` before
`python_dll`, as in the source. -/
def Cpp_config._build_config_pybind (self : Cpp_config) : Except String ConfigRecord :=
  if falsyStr self.ruta_compilador then
    Except.error "ruta_compilador es requerido"
  else if falsyStr self.python_dll then
    Except.error "python_dll es requerido"
  else if falsyStr self.pybind11_dll then
    Except.error "pybind11_dll es requerido"
  else
    Except.ok
      { configurations := [
          { name := "MSVC"
            includePath := [wildcard, self.pybind11_dll.getD "", self.python_dll.getD ""]
            compilerPath := self.ruta_compilador.getD ""
            cStandard := "c17"
            cppStandard := "c++20"
            intelliSenseMode := "windows-msvc-x64" }]
        version := 4 }

/-- Module-level constant `estandar_1`: the preset "plain" record. Its
`includePath` literally contains the pybind11 and Python include paths,
exactly as in the source. -/
def estandar_1 : ConfigRecord :=
  { configurations := [
      { name := "MSVC"
        includePath := [
          "${workspaceFolder}/**",
          "C:/Users/SZ/AppData/Local/Programs/Python/Python312/Lib/site-packages/pybind11/include",
          "C:/Users/SZ/AppData/Local/Programs/Python/Python312/include"]
        compilerPath := "C:/Program Files (x86)/Microsoft Visual Studio/2022/BuildTools/VC/Tools/MSVC/14.44.35207/bin/Hostx64/x64/cl.exe"
        cStandard := "c17"
        cppStandard := "c++20"
        intelliSenseMode := "windows-msvc-x64" }]
    version := 4 }

/-- Module-level constant `pybind_2`: the preset "pybind" record, literal for
literal from the source. -/
def pybind_2 : ConfigRecord :=
  { configurations := [
      { name := "MSVC"
        includePath := [
          "${workspaceFolder}/**",
          "C:/Users/SZ/AppData/Local/Programs/Python/Python312/Lib/site-packages/pybind11/include",
          "C:/Users/SZ/AppData/Local/Programs/Python/Python312/include"]
        compilerPath := "C:/Program Files (x86)/Microsoft Visual Studio/2022/BuildTools/VC/Tools/MSVC/14.44.35207/bin/Hostx64/x64/cl.exe"
        cStandard := "c17"
        cppStandard := "c++20"
        intelliSenseMode := "windows-msvc-x64" }]
    version := 4 }

/-- Lower-case hexadecimal digit, as Python's `json` module emits in
`\uXXXX` escapes. -/
def hexDigit (n : Nat) : Char :=
  if n < 10 then Char.ofNat (48 + n) else Char.ofNat (87 + n)

/-- Four lower-case hex digits of `n % 65536`. -/
def hex4 (n : Nat) : String :=
  String.mk [hexDigit (n / 4096 % 16), hexDigit (n / 256 % 16),
             hexDigit (n / 16 % 16), hexDigit (n % 16)]

/-- Escaping of one character inside a JSON string, as Python's
`json.dump` does with its default `ensure_ascii=True`: `"` and `\` get a
backslash, the five short escapes are used, every other character outside
`0x20..0x7e` becomes `\uXXXX` (a surrogate pair above `0xffff`). -/
def jsonEscapeChar (c : Char) : String :=
  if c = Char.ofNat 34 then "\\\""
  else if c = Char.ofNat 92 then "\\\\"
  else if c = Char.ofNat 10 then "\\n"
  else if c = Char.ofNat 13 then "\\r"
  else if c = Char.ofNat 9 then "\\t"
  else if c = Char.ofNat 8 then "\\b"
  else if c = Char.ofNat 12 then "\\f"
  else if c.toNat < 32 || 126 < c.toNat then
    if c.toNat < 65536 then "\\u" ++ hex4 c.toNat
    else
      "\\u" ++ hex4 (55296 + (c.toNat - 65536) / 1024) ++
      "\\u" ++ hex4 (56320 + (c.toNat - 65536) % 1024)
  else String.singleton c

/-- A JSON string literal: quotes around the escaped characters. -/
def jsonStr (s : String) : String :=
  "\"" ++ String.join (s.toList.map jsonEscapeChar) ++ "\""

/-- Serialization of the `includePath` list as `json.dump(..., indent=4)`
renders it at depth 3 (items at 16 spaces, closing bracket at 12). -/
def dumpIncludePath : List String → String
  | [] => "[]"
  | ps =>
    "[\n" ++
    String.intercalate ",\n" (ps.map (fun p => "                " ++ jsonStr p)) ++
    "\n            ]"

/-- Serialization of one configuration entry at depth 2 (keys at 12 spaces),
keys in the insertion order of the Python dict. -/
def dumpEntry (e : ConfigEntry) : String :=
  "        \x7b\n" ++
  "            \"name\": " ++ jsonStr e.name ++ ",\n" ++
  "            \"includePath\": " ++ dumpIncludePath e.includePath ++ ",\n" ++
  "            \"compilerPath\": " ++ jsonStr e.compilerPath ++ ",\n" ++
  "            \"cStandard\": " ++ jsonStr e.cStandard ++ ",\n" ++
  "            \"cppStandard\": " ++ jsonStr e.cppStandard ++ ",\n" ++
  "            \"intelliSenseMode\": " ++ jsonStr e.intelliSenseMode ++ "\n" ++
  "        \x7d"

/-- Serialization of the `configurations` list at depth 1. -/
def dumpConfigurations : List ConfigEntry → String
  | [] => "[]"
  | es => "[\n" ++ String.intercalate ",\n" (es.map dumpEntry) ++ "\n    ]"

/-- The full text `json.dump(record, f, indent=4)` writes. -/
def dumpRecord (r : ConfigRecord) : String :=
  "\x7b\n    \"configurations\": " ++ dumpConfigurations r.configurations ++
  ",\n    \"version\": " ++ toString r.version ++ "\n\x7d"

/-- Filesystem state: the set of existing directories and the file contents,
keyed by path. Newest binding of a path comes first in `files`. -/
structure FS where
  dirs : List String
  files : List (String × String)
deriving DecidableEq

/-- `os.makedirs(path, exist_ok=...)`: creates the directory; with
`exist_ok=False` an existing directory raises `FileExistsError`, with
`exist_ok=True` it is silently kept. -/
def FS.makedirs (fs : FS) (path : String) (exist_ok : Bool) : Except String FS :=
  if fs.dirs.contains path then
    if exist_ok then Except.ok fs else Except.error "FileExistsError"
  else
    Except.ok { fs with dirs := path :: fs.dirs }

/-- Setting the content of a file, replacing any previous binding of the same
path. -/
def FS.writeFile (fs : FS) (path content : String) : FS :=
  { fs with files := (path, content) :: fs.files.filter (fun kv => kv.1 != path) }

/-- Content of a file, `none` when the file does not exist. -/
def FS.readFile (fs : FS) (path : String) : Option String :=
  (fs.files.find? (fun kv => kv.1 == path)).map Prod.snd

/-- `Cpp_config.config_estandar(ruta=None)`: resolve `ruta` against the
current working directory, `os.makedirs(f"{ruta}/.vscode", exist_ok=True)`,
open `.../c_cpp_properties.json` with mode `"w"` (truncating it to empty),
then evaluate `self._build_config_estandar()` — whose `ValueError`
propagates, leaving the truncated file — and on success dump the record. -/
def Cpp_config.config_estandar (self : Cpp_config) (ruta : Option String)
    (cwd : String) (fs : FS) : Except String Unit × FS :=
  let r := ruta.getD cwd
  match fs.makedirs (r ++ "/.vscode") true with
  | Except.error e => (Except.error e, fs)
  | Except.ok fs1 =>
    let path := r ++ "/.vscode/c_cpp_properties.json"
    let fs2 := fs1.writeFile path ""
    match self._build_config_estandar with
    | Except.error e => (Except.error e, fs2)
    | Except.ok cfg => (Except.ok (), fs2.writeFile path (dumpRecord cfg))

/-- `Cpp_config.config_pybind(ruta=None)`: same steps with
`self._build_config_pybind()`. -/
def Cpp_config.config_pybind (self : Cpp_config) (ruta : Option String)
    (cwd : String) (fs : FS) : Except String Unit × FS :=
  let r := ruta.getD cwd
  match fs.makedirs (r ++ "/.vscode") true with
  | Except.error e => (Except.error e, fs)
  | Except.ok fs1 =>
    let path := r ++ "/.vscode/c_cpp_properties.json"
    let fs2 := fs1.writeFile path ""
    match self._build_config_pybind with
    | Except.error e => (Except.error e, fs2)
    | Except.ok cfg => (Except.ok (), fs2.writeFile path (dumpRecord cfg))

/-- State of class `Cpp_config_auto`: `__init__` takes nothing and stores
nothing. -/
structure Cpp_config_auto where
deriving DecidableEq

/-- `Cpp_config_auto.config_estandar(ruta=None)`: same directory and file
steps, then dumps the module constant `estandar_1`. -/
def Cpp_config_auto.config_estandar (_self : Cpp_config_auto)
    (ruta : Option String) (cwd : String) (fs : FS) : Except String Unit × FS :=
  let r := ruta.getD cwd
  match fs.makedirs (r ++ "/.vscode") true with
  | Except.error e => (Except.error e, fs)
  | Except.ok fs1 =>
    let path := r ++ "/.vscode/c_cpp_properties.json"
    let fs2 := fs1.writeFile path ""
    (Except.ok (), fs2.writeFile path (dumpRecord estandar_1))

/-- `Cpp_config_auto.config_pybind(ruta=None)`: same steps, dumping the module
constant `pybind_2`. -/
def Cpp_config_auto.config_pybind (_self : Cpp_config_auto)
    (ruta : Option String) (cwd : String) (fs : FS) : Except String Unit × FS :=
  let r := ruta.getD cwd
  match fs.makedirs (r ++ "/.vscode") true with
  | Except.error e => (Except.error e, fs)
  | Except.ok fs1 =>
    let path := r ++ "/.vscode/c_cpp_properties.json"
    let fs2 := fs1.writeFile path ""
    (Except.ok (), fs2.writeFile path (dumpRecord pybind_2))

/-- Quantification device over the four persistence entry points of the two
classes, so that properties shared by all of them are one statement. -/
inductive PersistCall where
  | custom_estandar (cfg : Cpp_config)
  | custom_pybind (cfg : Cpp_config)
  | auto_estandar
  | auto_pybind
deriving DecidableEq

/-- Running a persistence call on a filesystem state. -/
def runPersist : PersistCall → Option String → String → FS → Except String Unit × FS
  | PersistCall.custom_estandar cfg, ruta, cwd, fs => cfg.config_estandar ruta cwd fs
  | PersistCall.custom_pybind cfg, ruta, cwd, fs => cfg.config_pybind ruta cwd fs
  | PersistCall.auto_estandar, ruta, cwd, fs => Cpp_config_auto.config_estandar ⟨⟩ ruta cwd fs
  | PersistCall.auto_pybind, ruta, cwd, fs => Cpp_config_auto.config_pybind ⟨⟩ ruta cwd fs

/-- The configuration record a persistence call serializes (for the validating
builder, the outcome of the build step; the preset builder always uses its
constant). -/
def callRecord : PersistCall → Except String ConfigRecord
  | PersistCall.custom_estandar cfg => cfg._build_config_estandar
  | PersistCall.custom_pybind cfg => cfg._build_config_pybind
  | PersistCall.auto_estandar => Except.ok estandar_1
  | PersistCall.auto_pybind => Except.ok pybind_2

/-! Helper lemmas shared by the claim theorems. -/

theorem FS.makedirs_exist_ok (fs : FS) (p : String) :
    fs.makedirs p true =
      Except.ok { fs with dirs := if fs.dirs.contains p then fs.dirs else p :: fs.dirs } := by
  unfold FS.makedirs
  split <;> simp_all

theorem FS.readFile_writeFile_self (fs : FS) (p c : String) :
    (fs.writeFile p c).readFile p = some c := by
  simp [FS.writeFile, FS.readFile]

theorem FS.dirs_writeFile (fs : FS) (p c : String) :
    (fs.writeFile p c).dirs = fs.dirs := rfl

/-- Every persistence call factors as: record the target directory, truncate
the output file, then either stop at the build error or write the dumped
record. -/
theorem runPersist_eq (c : PersistCall) (ruta : Option String) (cwd : String) (fs : FS) :
    runPersist c ruta cwd fs =
      (let r := ruta.getD cwd
       let path := r ++ "/.vscode/c_cpp_properties.json"
       let fs1 : FS := { fs with
         dirs := if fs.dirs.contains (r ++ "/.vscode") then fs.dirs
                 else (r ++ "/.vscode") :: fs.dirs }
       let fs2 := fs1.writeFile path ""
       match callRecord c with
       | Except.error e => (Except.error e, fs2)
       | Except.ok rec => (Except.ok (), fs2.writeFile path (dumpRecord rec))) := by
  cases c <;>
    simp only [runPersist, callRecord, Cpp_config.config_estandar,
      Cpp_config.config_pybind, Cpp_config_auto.config_estandar,
      Cpp_config_auto.config_pybind, FS.makedirs_exist_ok]

/-- C4: for every non-empty compiler path string, and any values of the two
auxiliary fields, the validating plain build succeeds with
`includePath = [wildcard]`, `compilerPath` equal to the given string, and the
fixed constant fields. -/
theorem c4_build_estandar_ok (c : String) (hc : c ≠ "") (py pb : Option String) :
    Cpp_config._build_config_estandar ⟨some c, py, pb⟩ =
      Except.ok { configurations := [
        { name := "MSVC", includePath := [wildcard], compilerPath := c,
          cStandard := "c17", cppStandard := "c++20",
          intelliSenseMode := "windows-msvc-x64" }], version := 4 } := by
  simp [Cpp_config._build_config_estandar, falsyStr, hc]

theorem c4_build_estandar_ok_witness :
    ("/cl.exe" : String) ≠ "" ∧
    Cpp_config._build_config_estandar ⟨some "/cl.exe", none, none⟩ =
      Except.ok { configurations := [
        { name := "MSVC", includePath := [wildcard], compilerPath := "/cl.exe",
          cStandard := "c17", cppStandard := "c++20",
          intelliSenseMode := "windows-msvc-x64" }], version := 4 } :=
  ⟨by decide, c4_build_estandar_ok "/cl.exe" (by decide) none none⟩

/-- C3: for every triple of non-empty strings (compiler path, python include
path `a1`, pybind11 include path `a2`), the validating extended build succeeds
with `includePath = [wildcard, a2, a1]` — the pybind11 path before the Python
path — and `compilerPath` equal to the compiler path. -/
theorem c3_build_pybind_ok (c a1 a2 : String)
    (hc : c ≠ "") (h1 : a1 ≠ "") (h2 : a2 ≠ "") :
    Cpp_config._build_config_pybind ⟨some c, some a1, some a2⟩ =
      Except.ok { configurations := [
        { name := "MSVC", includePath := [wildcard, a2, a1], compilerPath := c,
          cStandard := "c17", cppStandard := "c++20",
          intelliSenseMode := "windows-msvc-x64" }], version := 4 } := by
  simp [Cpp_config._build_config_pybind, falsyStr, hc, h1, h2]

theorem c3_build_pybind_ok_witness :
    ("/cl.exe" : String) ≠ "" ∧ ("/py/include" : String) ≠ "" ∧
    ("/pybind/include" : String) ≠ "" ∧
    Cpp_config._build_config_pybind ⟨some "/cl.exe", some "/py/include", some "/pybind/include"⟩ =
      Except.ok { configurations := [
        { name := "MSVC",
          includePath := [wildcard, "/pybind/include", "/py/include"],
          compilerPath := "/cl.exe",
          cStandard := "c17", cppStandard := "c++20",
          intelliSenseMode := "windows-msvc-x64" }], version := 4 } :=
  ⟨by decide, by decide, by decide,
   c3_build_pybind_ok "/cl.exe" "/py/include" "/pybind/include"
     (by decide) (by decide) (by decide)⟩

/-- C5: the extended build checks `ruta_compilador`, then `python_dll`, then
`pybind11_dll`; whichever check fails first determines the error raised. -/
theorem c5_pybind_check_order (self : Cpp_config) :
    (falsyStr self.ruta_compilador = true →
      self._build_config_pybind = Except.error "ruta_compilador es requerido") ∧
    (falsyStr self.ruta_compilador = false → falsyStr self.python_dll = true →
      self._build_config_pybind = Except.error "python_dll es requerido") ∧
    (falsyStr self.ruta_compilador = false → falsyStr self.python_dll = false →
      falsyStr self.pybind11_dll = true →
      self._build_config_pybind = Except.error "pybind11_dll es requerido") := by
  refine ⟨fun h1 => ?_, fun h1 h2 => ?_, fun h1 h2 h3 => ?_⟩
  · simp [Cpp_config._build_config_pybind, h1]
  · simp [Cpp_config._build_config_pybind, h1, h2]
  · simp [Cpp_config._build_config_pybind, h1, h2, h3]

theorem c5_pybind_check_order_witness :
    Cpp_config._build_config_pybind ⟨none, some "a", some "b"⟩ =
      Except.error "ruta_compilador es requerido" ∧
    Cpp_config._build_config_pybind ⟨some "c", some "", some "b"⟩ =
      Except.error "python_dll es requerido" ∧
    Cpp_config._build_config_pybind ⟨some "c", some "a", none⟩ =
      Except.error "pybind11_dll es requerido" :=
  ⟨(c5_pybind_check_order ⟨none, some "a", some "b"⟩).1 (by decide),
   (c5_pybind_check_order ⟨some "c", some "", some "b"⟩).2.1 (by decide) (by decide),
   (c5_pybind_check_order ⟨some "c", some "a", none⟩).2.2 (by decide) (by decide) (by decide)⟩

/-- C6: every record any build mode produces — validating plain, validating
extended, preset plain (`estandar_1`), preset extended (`pybind_2`) — has
`version = 4` and, in each configuration entry, the fixed constants
`name = "MSVC"`, `cStandard = "c17"`, `cppStandard = "c++20"`,
`intelliSenseMode = "windows-msvc-x64"`. -/
theorem c6_fixed_fields (self : Cpp_config) (r : ConfigRecord)
    (h : Cpp_config._build_config_estandar self = Except.ok r ∨
         Cpp_config._build_config_pybind self = Except.ok r ∨
         r = estandar_1 ∨ r = pybind_2) :
    r.version = 4 ∧ ∀ e ∈ r.configurations,
      e.name = "MSVC" ∧ e.cStandard = "c17" ∧ e.cppStandard = "c++20" ∧
      e.intelliSenseMode = "windows-msvc-x64" := by
  rcases h with h | h | h | h
  · unfold Cpp_config._build_config_estandar at h
    split at h
    · simp at h
    · simp only [Except.ok.injEq] at h
      subst h
      simp
  · unfold Cpp_config._build_config_pybind at h
    split at h
    · simp at h
    · split at h
      · simp at h
      · split at h
        · simp at h
        · simp only [Except.ok.injEq] at h
          subst h
          simp
  · subst h
    simp [estandar_1]
  · subst h
    simp [pybind_2]

theorem c6_fixed_fields_witness :
    (Cpp_config._build_config_estandar ⟨none, none, none⟩ = Except.ok estandar_1 ∨
     Cpp_config._build_config_pybind ⟨none, none, none⟩ = Except.ok estandar_1 ∨
     estandar_1 = estandar_1 ∨ estandar_1 = pybind_2) ∧
    (estandar_1.version = 4 ∧ ∀ e ∈ estandar_1.configurations,
      e.name = "MSVC" ∧ e.cStandard = "c17" ∧ e.cppStandard = "c++20" ∧
      e.intelliSenseMode = "windows-msvc-x64") :=
  ⟨Or.inr (Or.inr (Or.inl rfl)),
   c6_fixed_fields ⟨none, none, none⟩ estandar_1 (Or.inr (Or.inr (Or.inl rfl)))⟩

/-- C1 counterexample: persisting the plain profile with a missing compiler
path on a fresh filesystem does raise the validation error, yet the `.vscode`
subdirectory is created and the output file exists with empty (truncated)
content — refuting "the error is raised before any file I/O occurs and neither
the subdirectory nor the output file has been created or modified". -/
theorem c1_counterexample :
    (Cpp_config.config_estandar ⟨none, none, none⟩ (some "/proj") "/cwd" ⟨[], []⟩).1 =
      Except.error "ruta_compilador es requerido" ∧
    (Cpp_config.config_estandar ⟨none, none, none⟩ (some "/proj") "/cwd"
      ⟨[], []⟩).2.dirs.contains "/proj/.vscode" = true ∧
    (Cpp_config.config_estandar ⟨none, none, none⟩ (some "/proj") "/cwd"
      ⟨[], []⟩).2.readFile "/proj/.vscode/c_cpp_properties.json" = some "" :=
  ⟨rfl, by decide, rfl⟩

/-- C1 (amended): when the build step of any persist call fails, the error
propagates and no record content is written, but validation runs only after
`os.makedirs` and after `open(..., "w")`: afterwards the conventional
subdirectory exists and the output file exists with empty content. -/
theorem c1_invalid_persist_state (c : PersistCall) (ruta : Option String)
    (cwd : String) (fs : FS) (e : String) (h : callRecord c = Except.error e) :
    (runPersist c ruta cwd fs).1 = Except.error e ∧
    (runPersist c ruta cwd fs).2.dirs.contains ((ruta.getD cwd) ++ "/.vscode") = true ∧
    (runPersist c ruta cwd fs).2.readFile
      ((ruta.getD cwd) ++ "/.vscode/c_cpp_properties.json") = some "" := by
  have hrw := runPersist_eq c ruta cwd fs
  rw [h] at hrw
  rw [hrw]
  refine ⟨rfl, ?_, FS.readFile_writeFile_self _ _ _⟩
  show (if fs.dirs.contains ((ruta.getD cwd) ++ "/.vscode") then fs.dirs
        else ((ruta.getD cwd) ++ "/.vscode") :: fs.dirs).contains
          ((ruta.getD cwd) ++ "/.vscode") = true
  split
  · assumption
  · simp

theorem c1_invalid_persist_state_witness :
    callRecord (PersistCall.custom_pybind ⟨some "/cl.exe", none, some "/pb"⟩) =
      Except.error "python_dll es requerido" ∧
    ((runPersist (PersistCall.custom_pybind ⟨some "/cl.exe", none, some "/pb"⟩)
        none "/cwd" ⟨["/cwd/.vscode"], [("/cwd/.vscode/c_cpp_properties.json", "old")]⟩).1 =
      Except.error "python_dll es requerido" ∧
     (runPersist (PersistCall.custom_pybind ⟨some "/cl.exe", none, some "/pb"⟩)
        none "/cwd" ⟨["/cwd/.vscode"],
          [("/cwd/.vscode/c_cpp_properties.json", "old")]⟩).2.dirs.contains
       "/cwd/.vscode" = true ∧
     (runPersist (PersistCall.custom_pybind ⟨some "/cl.exe", none, some "/pb"⟩)
        none "/cwd" ⟨["/cwd/.vscode"],
          [("/cwd/.vscode/c_cpp_properties.json", "old")]⟩).2.readFile
       "/cwd/.vscode/c_cpp_properties.json" = some "") :=
  ⟨rfl, c1_invalid_persist_state _ none "/cwd" _ _ rfl⟩

/-- C2: evaluating the preset "plain" constant shows its `includePath` is not
wildcard-only — it carries the pybind11 and Python include entries, although
the method writing it documents itself as "sin incluir pybind11". -/
theorem c2_estandar_1_not_plain :
    estandar_1.configurations.map ConfigEntry.includePath =
      [[wildcard,
        "C:/Users/SZ/AppData/Local/Programs/Python/Python312/Lib/site-packages/pybind11/include",
        "C:/Users/SZ/AppData/Local/Programs/Python/Python312/include"]] ∧
    estandar_1.configurations.map ConfigEntry.includePath ≠ [[wildcard]] := by
  exact ⟨rfl, by decide⟩

/-- C7: for one target and any two persist calls whose build steps succeed,
both calls return success and afterwards the output file holds exactly the
serialization of the second call's record — the second write truncates, no
content of the first call survives. -/
theorem c7_overwrite (c1 c2 : PersistCall) (ruta : Option String) (cwd : String)
    (fs : FS) (r1 r2 : ConfigRecord)
    (h1 : callRecord c1 = Except.ok r1) (h2 : callRecord c2 = Except.ok r2) :
    (runPersist c1 ruta cwd fs).1 = Except.ok () ∧
    (runPersist c2 ruta cwd (runPersist c1 ruta cwd fs).2).1 = Except.ok () ∧
    (runPersist c2 ruta cwd (runPersist c1 ruta cwd fs).2).2.readFile
      ((ruta.getD cwd) ++ "/.vscode/c_cpp_properties.json") = some (dumpRecord r2) := by
  have hrw1 := runPersist_eq c1 ruta cwd fs
  rw [h1] at hrw1
  have hrw2 := runPersist_eq c2 ruta cwd (runPersist c1 ruta cwd fs).2
  rw [h2] at hrw2
  rw [hrw2]
  refine ⟨?_, rfl, FS.readFile_writeFile_self _ _ _⟩
  rw [hrw1]

theorem c7_overwrite_witness :
    callRecord PersistCall.auto_pybind = Except.ok pybind_2 ∧
    callRecord (PersistCall.custom_estandar ⟨some "/cl", none, none⟩) =
      Except.ok { configurations := [
        { name := "MSVC", includePath := [wildcard], compilerPath := "/cl",
          cStandard := "c17", cppStandard := "c++20",
          intelliSenseMode := "windows-msvc-x64" }], version := 4 } ∧
    ((runPersist PersistCall.auto_pybind (some "/p") "/w" ⟨[], []⟩).1 = Except.ok () ∧
     (runPersist (PersistCall.custom_estandar ⟨some "/cl", none, none⟩) (some "/p") "/w"
        (runPersist PersistCall.auto_pybind (some "/p") "/w" ⟨[], []⟩).2).1 = Except.ok () ∧
     (runPersist (PersistCall.custom_estandar ⟨some "/cl", none, none⟩) (some "/p") "/w"
        (runPersist PersistCall.auto_pybind (some "/p") "/w" ⟨[], []⟩).2).2.readFile
       "/p/.vscode/c_cpp_properties.json" =
       some (dumpRecord { configurations := [
         { name := "MSVC", includePath := [wildcard], compilerPath := "/cl",
           cStandard := "c17", cppStandard := "c++20",
           intelliSenseMode := "windows-msvc-x64" }], version := 4 })) :=
  ⟨rfl, rfl,
   c7_overwrite PersistCall.auto_pybind (PersistCall.custom_estandar ⟨some "/cl", none, none⟩)
     (some "/p") "/w" ⟨[], []⟩ pybind_2 _ rfl rfl⟩

/-- C8: when the conventional subdirectory already exists and the build step
succeeds, the persist call still succeeds — `exist_ok=True` makes directory
creation idempotent, the directory list is unchanged — and the file is
written with the record's serialization. -/
theorem c8_idempotent_dir (c : PersistCall) (ruta : Option String) (cwd : String)
    (fs : FS) (r : ConfigRecord)
    (hdir : fs.dirs.contains ((ruta.getD cwd) ++ "/.vscode") = true)
    (h : callRecord c = Except.ok r) :
    (runPersist c ruta cwd fs).1 = Except.ok () ∧
    (runPersist c ruta cwd fs).2.dirs = fs.dirs ∧
    (runPersist c ruta cwd fs).2.readFile
      ((ruta.getD cwd) ++ "/.vscode/c_cpp_properties.json") = some (dumpRecord r) := by
  have hrw := runPersist_eq c ruta cwd fs
  rw [h] at hrw
  rw [hrw]
  refine ⟨rfl, ?_, FS.readFile_writeFile_self _ _ _⟩
  simp [FS.writeFile]
  simpa using hdir

theorem c8_idempotent_dir_witness :
    (FS.dirs ⟨["/p/.vscode"], []⟩).contains "/p/.vscode" = true ∧
    callRecord PersistCall.auto_estandar = Except.ok estandar_1 ∧
    ((runPersist PersistCall.auto_estandar (some "/p") "/w" ⟨["/p/.vscode"], []⟩).1 =
       Except.ok () ∧
     (runPersist PersistCall.auto_estandar (some "/p") "/w" ⟨["/p/.vscode"], []⟩).2.dirs =
       FS.dirs ⟨["/p/.vscode"], []⟩ ∧
     (runPersist PersistCall.auto_estandar (some "/p") "/w" ⟨["/p/.vscode"], []⟩).2.readFile
       "/p/.vscode/c_cpp_properties.json" = some (dumpRecord estandar_1)) :=
  ⟨by decide, rfl,
   c8_idempotent_dir PersistCall.auto_estandar (some "/p") "/w" ⟨["/p/.vscode"], []⟩
     estandar_1 (by decide) rfl⟩

theorem auto_estandar_readFile (s : Cpp_config_auto) (ruta : Option String)
    (cwd : String) (fs : FS) :
    (Cpp_config_auto.config_estandar s ruta cwd fs).2.readFile
      ((ruta.getD cwd) ++ "/.vscode/c_cpp_properties.json") =
      some (dumpRecord estandar_1) := by
  simp only [Cpp_config_auto.config_estandar]
  rw [FS.makedirs_exist_ok]
  exact FS.readFile_writeFile_self _ _ _

theorem auto_pybind_readFile (s : Cpp_config_auto) (ruta : Option String)
    (cwd : String) (fs : FS) :
    (Cpp_config_auto.config_pybind s ruta cwd fs).2.readFile
      ((ruta.getD cwd) ++ "/.vscode/c_cpp_properties.json") =
      some (dumpRecord pybind_2) := by
  simp only [Cpp_config_auto.config_pybind]
  rw [FS.makedirs_exist_ok]
  exact FS.readFile_writeFile_self _ _ _

/-- C9: the preset persistence operations are deterministic and
input-independent: any two invocations of the preset plain operation — on any
instances, targets, working directories and filesystem states — leave the dump
of the constant `estandar_1` at their own target path, hence the same content;
any two invocations of the preset extended operation likewise always write the
dump of `pybind_2`. -/
theorem c9_preset_deterministic (s1 s2 : Cpp_config_auto)
    (ruta1 ruta2 : Option String) (cwd1 cwd2 : String) (fs1 fs2 : FS) :
    ((Cpp_config_auto.config_estandar s1 ruta1 cwd1 fs1).2.readFile
       ((ruta1.getD cwd1) ++ "/.vscode/c_cpp_properties.json") =
       some (dumpRecord estandar_1) ∧
     (Cpp_config_auto.config_estandar s2 ruta2 cwd2 fs2).2.readFile
       ((ruta2.getD cwd2) ++ "/.vscode/c_cpp_properties.json") =
       some (dumpRecord estandar_1)) ∧
    ((Cpp_config_auto.config_pybind s1 ruta1 cwd1 fs1).2.readFile
       ((ruta1.getD cwd1) ++ "/.vscode/c_cpp_properties.json") =
       some (dumpRecord pybind_2) ∧
     (Cpp_config_auto.config_pybind s2 ruta2 cwd2 fs2).2.readFile
       ((ruta2.getD cwd2) ++ "/.vscode/c_cpp_properties.json") =
       some (dumpRecord pybind_2)) :=
  ⟨⟨auto_estandar_readFile s1 ruta1 cwd1 fs1, auto_estandar_readFile s2 ruta2 cwd2 fs2⟩,
   ⟨auto_pybind_readFile s1 ruta1 cwd1 fs1, auto_pybind_readFile s2 ruta2 cwd2 fs2⟩⟩

/-- C10: the two preset constants are equal as values — `estandar_1` already
contains the two extra include entries — so the preset plain and preset
extended persistence operations produce identical filesystem outcomes on
every target. -/
theorem c10_presets_equal :
    estandar_1 = pybind_2 ∧
    ∀ (s1 s2 : Cpp_config_auto) (ruta : Option String) (cwd : String) (fs : FS),
      Cpp_config_auto.config_estandar s1 ruta cwd fs =
      Cpp_config_auto.config_pybind s2 ruta cwd fs :=
  ⟨rfl, fun _ _ _ _ _ => rfl⟩
